import Mathlib

/-!
Shallow embedding of `src/rkyv/src/rc/validation.rs`: validation of archived
shared (`ArchivedRc`) and weak (`ArchivedRcWeak`) pointers.

Modelling conventions:
- Machine addresses, type identities (`core::any::TypeId`) and bytes are `Nat`.
- The mutable validation context `&mut C` is threaded explicitly as a state
  value of an abstract type `σ`; fallible Rust calls returning
  `Result<A, E>` become `Except E (A × σ)`.
- The external contracts consumed by this file (the bounds-checked relative
  pointer resolver `RelPtr::manual_check_bytes`, the shared-pointer ledger
  operation `SharedArchiveContext::claim_shared_ptr`, and the payload
  validator `T::check_bytes`) are passed in as function parameters, exactly
  as the Rust code is generic over the context `C` and pointee `T`.
- The ledger semantics needed by the deduplication and type-confusion claims
  is not part of this file's source; it is modelled from the spec's ledger
  contract (see `Ledger.claim`).
-/

/-- Errors that can occur while checking archived shared pointers
(`enum SharedPointerError<T, R, C>` in the source): a pointer-layout failure,
a payload-content failure, or a context/ledger failure, each wrapping the
underlying cause. -/
inductive SharedPointerError (T R C : Type) : Type where
  /-- An error occurred while checking the bytes of a shared value. -/
  | PointerCheckBytesError (e : T)
  /-- An error occurred while checking the bytes of a shared reference. -/
  | ValueCheckBytesError (e : R)
  /-- A context error occurred. -/
  | ContextError (e : C)

/-- Errors that can occur while checking archived weak pointers
(`enum WeakPointerError<T, R, C>` in the source). -/
inductive WeakPointerError (T R C : Type) : Type where
  /-- The weak pointer had an invalid tag (carries the raw byte). -/
  | InvalidTag (tag : Nat)
  /-- An error occurred while checking the underlying shared pointer. -/
  | CheckBytes (e : SharedPointerError T R C)

/-- The `std::error::Error::source` implementation for `SharedPointerError`:
every variant reports its wrapped cause. The dynamic trait object
`&dyn Error` is modelled by the sum of the three possible wrapped types. -/
def SharedPointerError.source {T R C : Type} :
    SharedPointerError T R C → Option (T ⊕ R ⊕ C)
  | SharedPointerError.PointerCheckBytesError e => some (Sum.inl e)
  | SharedPointerError.ValueCheckBytesError e => some (Sum.inr (Sum.inl e))
  | SharedPointerError.ContextError e => some (Sum.inr (Sum.inr e))

/-- The `std::error::Error::source` implementation for `WeakPointerError`:
`InvalidTag` wraps no cause and reports none; `CheckBytes` reports the
wrapped shared-pointer error. -/
def WeakPointerError.source {T R C : Type} :
    WeakPointerError T R C → Option (SharedPointerError T R C)
  | WeakPointerError.InvalidTag _ => none
  | WeakPointerError.CheckBytes e => some e

/-- Modelled from the spec: `bytecheck::Unreachable`, the error type of the
discriminant-byte read, is uninhabited ("assumed-infallible byte read"). The
type itself lives in the external `bytecheck` crate, not under `src/`. -/
inductive Unreachable : Type where

/-- `impl<T, R, C> From<Unreachable> for WeakPointerError<T, R, C>`: the
conversion from the uninhabited error type, a logically-unreachable state. -/
def WeakPointerError.fromUnreachable {T R C : Type} :
    Unreachable → WeakPointerError T R C :=
  fun u => nomatch u

/-- Modelled from the spec: `u8::check_bytes` from the external `bytecheck`
crate reads the discriminant byte and is treated as infallible — under the
precondition that the byte lies inside the buffer (the buffer is modelled as
the total function `byteAt`), it always succeeds and never mutates the
context. -/
def u8.check_bytes {σ : Type} (byteAt : Nat → Nat) (loc : Nat) (context : σ) :
    Except Unreachable (Nat × σ) :=
  Except.ok (byteAt loc, context)

/-- `ArchivedRcWeakTag::TAG_NONE`. Modelled from the spec: the enum
`ArchivedRcWeakTag` lives in `rc/mod.rs`, outside `src/`; the spec fixes the
wire layout as discriminant byte 0 = empty. -/
def ArchivedRcWeakTag.TAG_NONE : Nat := 0

/-- `ArchivedRcWeakTag::TAG_SOME`. Modelled from the spec: discriminant
byte 1 = populated. -/
def ArchivedRcWeakTag.TAG_SOME : Nat := 1

/-- `<ArchivedRc<T> as CheckBytes<C>>::check_bytes`. The three external
operations of the generic context `C` and pointee `T` are explicit
parameters:
`manualCheckBytes` is `RelPtr::<T>::manual_check_bytes` (resolve and
bounds-check the embedded relative pointer, yielding the resolved address),
`claimSharedPtr` is `C::claim_shared_ptr` (claim the resolved address in the
ledger under the type identity `tyId`, which stands for
`TypeId::of::<ArchivedRc<T>>()`), and `valueCheckBytes` is
`T::check_bytes` (the payload's own validator, run on the handle returned by
a first claim). On success the certified reference to the shared-pointer
value itself (`Ok(&*value)`) is returned together with the final context. -/
def ArchivedRc.check_bytes {σ Terr Rerr Cerr Handle : Type}
    (manualCheckBytes : Nat → σ → Except Terr (Nat × σ))
    (claimSharedPtr : Nat → Nat → σ → Except Cerr (Option Handle × σ))
    (valueCheckBytes : Handle → σ → Except Rerr σ)
    (tyId : Nat) (value : Nat) (context : σ) :
    Except (SharedPointerError Terr Rerr Cerr) (Nat × σ) :=
  match manualCheckBytes value context with
  | Except.error e =>
      Except.error (SharedPointerError.PointerCheckBytesError e)
  | Except.ok (relPtr, context) =>
      match claimSharedPtr relPtr tyId context with
      | Except.error e => Except.error (SharedPointerError.ContextError e)
      | Except.ok (some p, context) =>
          match valueCheckBytes p context with
          | Except.error e =>
              Except.error (SharedPointerError.ValueCheckBytesError e)
          | Except.ok context => Except.ok (value, context)
      | Except.ok (none, context) => Except.ok (value, context)

/-- `<ArchivedRcWeak<T> as CheckBytes<C>>::check_bytes`. The discriminant
byte at the start of the value is read through the infallible
`u8.check_bytes`; tag `TAG_NONE` succeeds immediately, tag `TAG_SOME`
delegates to `ArchivedRc.check_bytes` on the embedded shared pointer at the
payload field's layout offset (`ptr::addr_of!((*value).1)`, modelled as
`value + someFieldOffset`) wrapping failures in `WeakPointerError.CheckBytes`,
and any other byte is rejected as `WeakPointerError.InvalidTag`. -/
def ArchivedRcWeak.check_bytes {σ Terr Rerr Cerr Handle : Type}
    (byteAt : Nat → Nat)
    (manualCheckBytes : Nat → σ → Except Terr (Nat × σ))
    (claimSharedPtr : Nat → Nat → σ → Except Cerr (Option Handle × σ))
    (valueCheckBytes : Handle → σ → Except Rerr σ)
    (tyId : Nat) (someFieldOffset : Nat) (value : Nat) (context : σ) :
    Except (WeakPointerError Terr Rerr Cerr) (Nat × σ) :=
  match u8.check_bytes byteAt value context with
  | Except.error u => Except.error (WeakPointerError.fromUnreachable u)
  | Except.ok (tag, context) =>
      if tag = ArchivedRcWeakTag.TAG_NONE then
        Except.ok (value, context)
      else if tag = ArchivedRcWeakTag.TAG_SOME then
        match ArchivedRc.check_bytes manualCheckBytes claimSharedPtr
            valueCheckBytes tyId (value + someFieldOffset) context with
        | Except.error e => Except.error (WeakPointerError.CheckBytes e)
        | Except.ok (_, context) => Except.ok (value, context)
      else
        Except.error (WeakPointerError.InvalidTag tag)

/-- Modelled from the spec: the ledger's error on type confusion (the same
address claimed under two different type identities). The ledger
implementation lives in the repository's validation module, outside `src/`. -/
inductive LedgerError : Type where
  /-- The address was already claimed under a different type identity. -/
  | typeConfusion (address : Nat) (tyId : Nat)

/-- Modelled from the spec: the shared-pointer ledger is a mapping from
(resolved address, type identity of the pointee) to "already certified",
recorded per validation pass. -/
abbrev Ledger : Type := List (Nat × Nat)

/-- Modelled from the spec: the ledger contract
`claim(address, type_identity) -> Result<Option<PayloadHandle>, LedgerError>` —
`some handle` on first claim of that pair (caller must validate the payload),
`none` on repeat claim of the identical pair (already trusted), error on type
confusion. The payload handle is the resolved address itself. -/
def Ledger.claim (l : Ledger) (address : Nat) (tyId : Nat) :
    Except LedgerError (Option Nat × Ledger) :=
  if (address, tyId) ∈ l then
    Except.ok (none, l)
  else if l.any (fun p => p.1 = address) then
    Except.error (LedgerError.typeConfusion address tyId)
  else
    Except.ok (some address, (address, tyId) :: l)

/-- The spec-modelled ledger claim in the argument order of
`claim_shared_ptr(rel_ptr, type_id)` on a context whose state is a `Ledger`. -/
def claimSharedPtrLedger (address : Nat) (tyId : Nat) (l : Ledger) :
    Except LedgerError (Option Nat × Ledger) :=
  l.claim address tyId

/-- Claim C1: if the ledger already records a successful claim of the
resolved address under the same type identity, a repeat encounter of a
shared pointer to it is accepted without running the payload validator
(`valueCheckBytes` is universally quantified and absent from the result)
and without any ledger mutation (the ledger returned is the input ledger). -/
theorem rc_check_repeat_claim_skips_payload {Terr Rerr : Type}
    (manualCheckBytes : Nat → Ledger → Except Terr (Nat × Ledger))
    (valueCheckBytes : Nat → Ledger → Except Rerr Ledger)
    (tyId address value : Nat) (l : Ledger)
    (hres : manualCheckBytes value l = Except.ok (address, l))
    (hmem : (address, tyId) ∈ l) :
    ArchivedRc.check_bytes manualCheckBytes claimSharedPtrLedger
        valueCheckBytes tyId value l
      = Except.ok (value, l) := by
  unfold ArchivedRc.check_bytes
  rw [hres]
  unfold claimSharedPtrLedger Ledger.claim
  simp [hmem]

/-- Witness for C1: a ledger already holding (address 5, type 1); the payload
validator always fails, yet the repeat encounter succeeds untouched. -/
theorem rc_check_repeat_claim_skips_payload_witness :
    ArchivedRc.check_bytes
        (fun _ s => (Except.ok (5, s) : Except Nat (Nat × Ledger)))
        claimSharedPtrLedger
        (fun _ _ => (Except.error 7 : Except Nat Ledger))
        1 0 [(5, 1)]
      = Except.ok (0, [(5, 1)]) :=
  rc_check_repeat_claim_skips_payload _ _ 1 5 0 [(5, 1)] rfl (by decide)

/-- Claim C2: the shared-pointer validator's stage order and error mapping.
(i) A resolver failure yields `PointerCheckBytesError` wrapping the
resolver's cause, for every ledger-claim operation and payload validator
(so neither is consulted: the ledger is untouched).
(ii) A ledger-claim failure yields `ContextError`, for every payload
validator (so the payload is not validated).
(iii) When the claim returns a payload handle and the payload validator
fails, the result is `ValueCheckBytesError` wrapping that failure.
(iv) On success the returned certified reference is the shared-pointer value
itself, not its payload. -/
theorem rc_check_stage_order {σ Terr Rerr Cerr Handle : Type}
    (manualCheckBytes : Nat → σ → Except Terr (Nat × σ))
    (claimSharedPtr : Nat → Nat → σ → Except Cerr (Option Handle × σ))
    (valueCheckBytes : Handle → σ → Except Rerr σ)
    (tyId value : Nat) (context : σ) :
    (∀ e, manualCheckBytes value context = Except.error e →
      ∀ (claim2 : Nat → Nat → σ → Except Cerr (Option Handle × σ))
        (val2 : Handle → σ → Except Rerr σ),
        ArchivedRc.check_bytes manualCheckBytes claim2 val2 tyId value context
          = Except.error (SharedPointerError.PointerCheckBytesError e))
  ∧ (∀ address s1 e, manualCheckBytes value context = Except.ok (address, s1) →
      claimSharedPtr address tyId s1 = Except.error e →
      ∀ (val2 : Handle → σ → Except Rerr σ),
        ArchivedRc.check_bytes manualCheckBytes claimSharedPtr val2
            tyId value context
          = Except.error (SharedPointerError.ContextError e))
  ∧ (∀ address s1 p s2 e,
      manualCheckBytes value context = Except.ok (address, s1) →
      claimSharedPtr address tyId s1 = Except.ok (some p, s2) →
      valueCheckBytes p s2 = Except.error e →
      ArchivedRc.check_bytes manualCheckBytes claimSharedPtr valueCheckBytes
          tyId value context
        = Except.error (SharedPointerError.ValueCheckBytesError e))
  ∧ (∀ r s', ArchivedRc.check_bytes manualCheckBytes claimSharedPtr
        valueCheckBytes tyId value context = Except.ok (r, s') →
      r = value) := by
  refine ⟨?_, ?_, ?_, ?_⟩
  · intro e he claim2 val2
    unfold ArchivedRc.check_bytes
    rw [he]
  · intro address s1 e hres hclaim val2
    unfold ArchivedRc.check_bytes
    rw [hres]
    dsimp only
    rw [hclaim]
  · intro address s1 p s2 e hres hclaim hval
    unfold ArchivedRc.check_bytes
    rw [hres]
    dsimp only
    rw [hclaim]
    dsimp only
    rw [hval]
  · intro r s' hok
    unfold ArchivedRc.check_bytes at hok
    rcases hmc : manualCheckBytes value context with e | ⟨address, s1⟩
    · rw [hmc] at hok
      exact absurd hok (by simp)
    · rw [hmc] at hok
      dsimp only at hok
      rcases hcl : claimSharedPtr address tyId s1 with e | ⟨op, s2⟩
      · rw [hcl] at hok
        exact absurd hok (by simp)
      · rw [hcl] at hok
        rcases op with _ | p
        · dsimp only at hok
          simp only [Except.ok.injEq, Prod.mk.injEq] at hok
          exact hok.1.symm
        · dsimp only at hok
          rcases hvc : valueCheckBytes p s2 with e | s3
          · rw [hvc] at hok
            exact absurd hok (by simp)
          · rw [hvc] at hok
            simp only [Except.ok.injEq, Prod.mk.injEq] at hok
            exact hok.1.symm

/-- Witness for C2: with a resolver that fails with cause 9, the validator
fails with `PointerCheckBytesError 9` (conjunct (i) at a concrete input). -/
theorem rc_check_stage_order_witness :
    ArchivedRc.check_bytes
        (fun _ _ => (Except.error 9 : Except Nat (Nat × Nat)))
        (fun _ _ s => (Except.ok (none, s) : Except Nat (Option Nat × Nat)))
        (fun _ s => (Except.ok s : Except Nat Nat))
        0 0 0
      = Except.error (SharedPointerError.PointerCheckBytesError 9) :=
  (rc_check_stage_order
      (fun _ _ => (Except.error 9 : Except Nat (Nat × Nat)))
      (fun _ _ s => (Except.ok (none, s) : Except Nat (Option Nat × Nat)))
      (fun _ s => (Except.ok s : Except Nat Nat))
      0 0 0).1 9 rfl _ _

/-- Claim C3: the shared-pointer validator claims the resolved address under
the pointee value type's identity, and claiming the same address under a
second, different type identity in one pass fails with the fatal
ledger/type-confusion error surfaced as `ContextError` — never silently
accepted. (`(address, tyId') ∈ l` records the earlier claim; the hypothesis
`(address, tyId) ∉ l` says the present identity is a different one.) -/
theorem rc_check_type_confusion {Terr Rerr : Type}
    (manualCheckBytes : Nat → Ledger → Except Terr (Nat × Ledger))
    (valueCheckBytes : Nat → Ledger → Except Rerr Ledger)
    (tyId tyId' address value : Nat) (l : Ledger)
    (hres : manualCheckBytes value l = Except.ok (address, l))
    (hold : (address, tyId') ∈ l)
    (hnew : (address, tyId) ∉ l) :
    ArchivedRc.check_bytes manualCheckBytes claimSharedPtrLedger
        valueCheckBytes tyId value l
      = Except.error (SharedPointerError.ContextError
          (LedgerError.typeConfusion address tyId)) := by
  unfold ArchivedRc.check_bytes
  rw [hres]
  dsimp only
  unfold claimSharedPtrLedger Ledger.claim
  have hany : l.any (fun p => p.1 = address) = true :=
    List.any_eq_true.mpr ⟨(address, tyId'), hold, by simp⟩
  simp [hnew, hany]

/-- Witness for C3: address 5 was first claimed under type identity 1;
claiming it under type identity 2 fails with type confusion. -/
theorem rc_check_type_confusion_witness :
    ArchivedRc.check_bytes
        (fun _ s => (Except.ok (5, s) : Except Nat (Nat × Ledger)))
        claimSharedPtrLedger
        (fun _ s => (Except.ok s : Except Nat Ledger))
        2 0 [(5, 1)]
      = Except.error (SharedPointerError.ContextError
          (LedgerError.typeConfusion 5 2)) :=
  rc_check_type_confusion _ _ 2 1 5 0 [(5, 1)] rfl (by decide) (by decide)

/-- Claim C4: a weak pointer whose discriminant byte is neither the empty
tag (0) nor the populated tag (1) fails with `InvalidTag` carrying exactly
the offending byte, for every resolver, ledger-claim operation and payload
validator (so neither variant's handling is entered). -/
theorem weak_check_invalid_tag {σ Terr Rerr Cerr Handle : Type}
    (byteAt : Nat → Nat)
    (manualCheckBytes : Nat → σ → Except Terr (Nat × σ))
    (claimSharedPtr : Nat → Nat → σ → Except Cerr (Option Handle × σ))
    (valueCheckBytes : Handle → σ → Except Rerr σ)
    (tyId someFieldOffset value : Nat) (context : σ)
    (h0 : byteAt value ≠ ArchivedRcWeakTag.TAG_NONE)
    (h1 : byteAt value ≠ ArchivedRcWeakTag.TAG_SOME) :
    ArchivedRcWeak.check_bytes byteAt manualCheckBytes claimSharedPtr
        valueCheckBytes tyId someFieldOffset value context
      = Except.error (WeakPointerError.InvalidTag (byteAt value)) := by
  unfold ArchivedRcWeak.check_bytes u8.check_bytes
  simp [h0, h1]

/-- Witness for C4: discriminant byte 2 is rejected with `InvalidTag 2`. -/
theorem weak_check_invalid_tag_witness :
    ArchivedRcWeak.check_bytes (fun _ => 2)
        (fun _ s => (Except.ok (5, s) : Except Nat (Nat × Nat)))
        (fun _ _ s => (Except.ok (none, s) : Except Nat (Option Nat × Nat)))
        (fun _ s => (Except.ok s : Except Nat Nat))
        0 1 0 0
      = Except.error (WeakPointerError.InvalidTag 2) :=
  weak_check_invalid_tag (fun _ => 2) _ _ _ 0 1 0 0 (by decide) (by decide)

/-- Claim C5: a weak pointer whose discriminant byte equals the empty tag
(0) certifies successfully at once: the context is returned unchanged, and
the result holds for every buffer content away from the discriminant byte
and for every resolver, ledger-claim operation and payload validator — so no
further bytes are inspected, the shared-pointer validator is not invoked and
the ledger is untouched. -/
theorem weak_check_empty_tag {σ Terr Rerr Cerr Handle : Type}
    (byteAt : Nat → Nat)
    (manualCheckBytes : Nat → σ → Except Terr (Nat × σ))
    (claimSharedPtr : Nat → Nat → σ → Except Cerr (Option Handle × σ))
    (valueCheckBytes : Handle → σ → Except Rerr σ)
    (tyId someFieldOffset value : Nat) (context : σ)
    (h : byteAt value = ArchivedRcWeakTag.TAG_NONE) :
    ArchivedRcWeak.check_bytes byteAt manualCheckBytes claimSharedPtr
        valueCheckBytes tyId someFieldOffset value context
      = Except.ok (value, context) := by
  unfold ArchivedRcWeak.check_bytes u8.check_bytes
  simp [h]

/-- Witness for C5: discriminant byte 0 certifies even though the resolver,
the claim operation and the payload validator all always fail. -/
theorem weak_check_empty_tag_witness :
    ArchivedRcWeak.check_bytes (fun _ => 0)
        (fun _ _ => (Except.error 3 : Except Nat (Nat × Nat)))
        (fun _ _ _ => (Except.error 4 : Except Nat (Option Nat × Nat)))
        (fun _ _ => (Except.error 5 : Except Nat Nat))
        0 1 0 0
      = Except.ok (0, 0) :=
  weak_check_empty_tag (fun _ => 0) _ _ _ 0 1 0 0 (by decide)

/-- Claim C6: a weak pointer whose discriminant byte equals the populated
tag (1) delegates to the shared-pointer validator on the embedded shared
pointer at the payload's layout offset; it succeeds exactly when the
delegation succeeds (returning the weak pointer itself with the delegated
final context), and any delegation failure is wrapped in
`WeakPointerError.CheckBytes`. -/
theorem weak_check_populated_delegates {σ Terr Rerr Cerr Handle : Type}
    (byteAt : Nat → Nat)
    (manualCheckBytes : Nat → σ → Except Terr (Nat × σ))
    (claimSharedPtr : Nat → Nat → σ → Except Cerr (Option Handle × σ))
    (valueCheckBytes : Handle → σ → Except Rerr σ)
    (tyId someFieldOffset value : Nat) (context : σ)
    (h : byteAt value = ArchivedRcWeakTag.TAG_SOME) :
    (∀ r s', ArchivedRc.check_bytes manualCheckBytes claimSharedPtr
        valueCheckBytes tyId (value + someFieldOffset) context
          = Except.ok (r, s') →
      ArchivedRcWeak.check_bytes byteAt manualCheckBytes claimSharedPtr
          valueCheckBytes tyId someFieldOffset value context
        = Except.ok (value, s'))
  ∧ (∀ e, ArchivedRc.check_bytes manualCheckBytes claimSharedPtr
        valueCheckBytes tyId (value + someFieldOffset) context
          = Except.error e →
      ArchivedRcWeak.check_bytes byteAt manualCheckBytes claimSharedPtr
          valueCheckBytes tyId someFieldOffset value context
        = Except.error (WeakPointerError.CheckBytes e)) := by
  constructor
  · intro r s' hrc
    unfold ArchivedRcWeak.check_bytes u8.check_bytes
    simp only [h]
    rw [hrc]
    simp [ArchivedRcWeakTag.TAG_NONE, ArchivedRcWeakTag.TAG_SOME]
  · intro e hrc
    unfold ArchivedRcWeak.check_bytes u8.check_bytes
    simp only [h]
    rw [hrc]
    simp [ArchivedRcWeakTag.TAG_NONE, ArchivedRcWeakTag.TAG_SOME]

/-- Witness for C6: discriminant byte 1 with an always-failing resolver
(cause 3) fails as `CheckBytes (PointerCheckBytesError 3)`: a wrapped
pointer-layout failure identified as occurring inside a weak pointer. -/
theorem weak_check_populated_delegates_witness :
    ArchivedRcWeak.check_bytes (fun _ => 1)
        (fun _ _ => (Except.error 3 : Except Nat (Nat × Nat)))
        (fun _ _ s => (Except.ok (none, s) : Except Nat (Option Nat × Nat)))
        (fun _ s => (Except.ok s : Except Nat Nat))
        0 1 0 0
      = Except.error (WeakPointerError.CheckBytes
          (SharedPointerError.PointerCheckBytesError 3)) :=
  (weak_check_populated_delegates (fun _ => 1)
      (fun _ _ => (Except.error 3 : Except Nat (Nat × Nat)))
      (fun _ _ s => (Except.ok (none, s) : Except Nat (Option Nat × Nat)))
      (fun _ s => (Except.ok s : Except Nat Nat))
      0 1 0 0 (by decide)).2
    (SharedPointerError.PointerCheckBytesError 3) rfl

/-- Claim C7: structured-cause reporting. Every `SharedPointerError` variant
reports its wrapped error as its source; for `WeakPointerError`, the
`CheckBytes` variant reports the wrapped shared-pointer error as its source
while `InvalidTag`, which wraps no cause, reports none. -/
theorem error_source_convention {T R C : Type} :
    (∀ e : T, (SharedPointerError.PointerCheckBytesError e :
        SharedPointerError T R C).source = some (Sum.inl e))
  ∧ (∀ e : R, (SharedPointerError.ValueCheckBytesError e :
        SharedPointerError T R C).source = some (Sum.inr (Sum.inl e)))
  ∧ (∀ e : C, (SharedPointerError.ContextError e :
        SharedPointerError T R C).source = some (Sum.inr (Sum.inr e)))
  ∧ (∀ tag : Nat, (WeakPointerError.InvalidTag tag :
        WeakPointerError T R C).source = none)
  ∧ (∀ e : SharedPointerError T R C,
        (WeakPointerError.CheckBytes e).source = some e) :=
  ⟨fun _ => rfl, fun _ => rfl, fun _ => rfl, fun _ => rfl, fun _ => rfl⟩

/-- Claim C8: determinism. Two runs of the shared-pointer validator, or two
runs of the weak-pointer validator, on the same bytes and operations, each
starting from the same fresh context, produce identical outcomes. -/
theorem validation_deterministic {σ Terr Rerr Cerr Handle : Type}
    (byteAt : Nat → Nat)
    (manualCheckBytes : Nat → σ → Except Terr (Nat × σ))
    (claimSharedPtr : Nat → Nat → σ → Except Cerr (Option Handle × σ))
    (valueCheckBytes : Handle → σ → Except Rerr σ)
    (tyId someFieldOffset value : Nat) (context : σ)
    (rcRun1 rcRun2 : Except (SharedPointerError Terr Rerr Cerr) (Nat × σ))
    (weakRun1 weakRun2 : Except (WeakPointerError Terr Rerr Cerr) (Nat × σ))
    (hr1 : rcRun1 = ArchivedRc.check_bytes manualCheckBytes claimSharedPtr
        valueCheckBytes tyId value context)
    (hr2 : rcRun2 = ArchivedRc.check_bytes manualCheckBytes claimSharedPtr
        valueCheckBytes tyId value context)
    (hw1 : weakRun1 = ArchivedRcWeak.check_bytes byteAt manualCheckBytes
        claimSharedPtr valueCheckBytes tyId someFieldOffset value context)
    (hw2 : weakRun2 = ArchivedRcWeak.check_bytes byteAt manualCheckBytes
        claimSharedPtr valueCheckBytes tyId someFieldOffset value context) :
    rcRun1 = rcRun2 ∧ weakRun1 = weakRun2 :=
  ⟨hr1.trans hr2.symm, hw1.trans hw2.symm⟩

/-- Witness for C8: two runs of each validator on a concrete buffer and a
fresh empty ledger agree. -/
theorem validation_deterministic_witness :
    ArchivedRc.check_bytes
        (fun _ s => (Except.ok (5, s) : Except Nat (Nat × Ledger)))
        claimSharedPtrLedger
        (fun _ s => (Except.ok s : Except Nat Ledger)) 1 0 []
      = ArchivedRc.check_bytes
        (fun _ s => (Except.ok (5, s) : Except Nat (Nat × Ledger)))
        claimSharedPtrLedger
        (fun _ s => (Except.ok s : Except Nat Ledger)) 1 0 []
  ∧ ArchivedRcWeak.check_bytes (fun _ => 1)
        (fun _ s => (Except.ok (5, s) : Except Nat (Nat × Ledger)))
        claimSharedPtrLedger
        (fun _ s => (Except.ok s : Except Nat Ledger)) 1 1 0 []
      = ArchivedRcWeak.check_bytes (fun _ => 1)
        (fun _ s => (Except.ok (5, s) : Except Nat (Nat × Ledger)))
        claimSharedPtrLedger
        (fun _ s => (Except.ok s : Except Nat Ledger)) 1 1 0 [] :=
  validation_deterministic (fun _ => 1)
    (fun _ s => (Except.ok (5, s) : Except Nat (Nat × Ledger)))
    claimSharedPtrLedger
    (fun _ s => (Except.ok s : Except Nat Ledger)) 1 1 0 []
    _ _ _ _ rfl rfl rfl rfl

/-- Claim C9: the discriminant-byte read is infallible. `u8.check_bytes`
always succeeds with the byte at the read location and an unchanged context,
and its error type `Unreachable` is uninhabited, so the weak-pointer
validator's error branch for the byte read (the `fromUnreachable`
conversion) can never be taken. -/
theorem u8_read_infallible {σ : Type} :
    (∀ (byteAt : Nat → Nat) (loc : Nat) (context : σ),
      u8.check_bytes byteAt loc context = Except.ok (byteAt loc, context))
  ∧ (Unreachable → False) :=
  ⟨fun _ _ _ => rfl, nofun⟩

/-- Claim C10: an invalid discriminant byte aborts atomically: the outcome
of the weak-pointer validator is the `InvalidTag` error and is identical for
any two choices of resolver, ledger-claim operation and payload validator,
so no ledger claim is made and the shared-pointer validator is never
invoked before the abort. -/
theorem weak_invalid_tag_no_mutation {σ Terr Rerr Cerr Handle : Type}
    (byteAt : Nat → Nat)
    (tyId someFieldOffset value : Nat) (context : σ)
    (h0 : byteAt value ≠ ArchivedRcWeakTag.TAG_NONE)
    (h1 : byteAt value ≠ ArchivedRcWeakTag.TAG_SOME) :
    ∀ (mcb1 mcb2 : Nat → σ → Except Terr (Nat × σ))
      (claim1 claim2 : Nat → Nat → σ → Except Cerr (Option Handle × σ))
      (val1 val2 : Handle → σ → Except Rerr σ),
      ArchivedRcWeak.check_bytes byteAt mcb1 claim1 val1 tyId
          someFieldOffset value context
        = ArchivedRcWeak.check_bytes byteAt mcb2 claim2 val2 tyId
          someFieldOffset value context
    ∧ ArchivedRcWeak.check_bytes byteAt mcb1 claim1 val1 tyId
          someFieldOffset value context
        = Except.error (WeakPointerError.InvalidTag (byteAt value)) := by
  intro mcb1 mcb2 claim1 claim2 val1 val2
  constructor
  · unfold ArchivedRcWeak.check_bytes u8.check_bytes
    simp [h0, h1]
  · unfold ArchivedRcWeak.check_bytes u8.check_bytes
    simp [h0, h1]

/-- Witness for C10: with discriminant byte 7, a context whose operations
all succeed and one whose operations all fail produce the same outcome,
`InvalidTag 7`. -/
theorem weak_invalid_tag_no_mutation_witness :
    (ArchivedRcWeak.check_bytes (fun _ => 7)
        (fun _ s => (Except.ok (5, s) : Except Nat (Nat × Nat)))
        (fun _ _ s => (Except.ok (none, s) : Except Nat (Option Nat × Nat)))
        (fun _ s => (Except.ok s : Except Nat Nat)) 0 1 0 0
      = ArchivedRcWeak.check_bytes (fun _ => 7)
        (fun _ _ => (Except.error 3 : Except Nat (Nat × Nat)))
        (fun _ _ _ => (Except.error 4 : Except Nat (Option Nat × Nat)))
        (fun _ _ => (Except.error 5 : Except Nat Nat)) 0 1 0 0)
  ∧ ArchivedRcWeak.check_bytes (fun _ => 7)
        (fun _ s => (Except.ok (5, s) : Except Nat (Nat × Nat)))
        (fun _ _ s => (Except.ok (none, s) : Except Nat (Option Nat × Nat)))
        (fun _ s => (Except.ok s : Except Nat Nat)) 0 1 0 0
      = Except.error (WeakPointerError.InvalidTag 7) :=
  weak_invalid_tag_no_mutation (fun _ => 7) 0 1 0 0
    (by decide) (by decide) _ _ _ _ _ _
